import Mathlib

/-!
# Verification of the SurrealDB-ORM `surreal_sdk` connection core

This development embeds the connection core of the SurrealDB-ORM repository
(the `surreal_sdk` package: wire codec, record-id escaping, transaction
controllers, request dispatcher, subscription manager, typed function calls
and endpoint-URL normalization) as executable Lean definitions, and proves
the specified properties about them.

The Python implementation files of `surreal_sdk` are not present in the
source tree (only its documentation, changelog and roadmap are), so every
definition below is modelled from the specification and the repository
documentation (`docs/sdk.md`, the roadmap entries for `escape_record_id`
and the CBOR protocol), as indicated by the doc comment of each definition.
-/

namespace SurrealSDK

/-! ## Wire codec (spec §4.1, docs/sdk.md CBOR protocol)

Modelled from the spec: the Python codec module of `surreal_sdk` is missing
from the source tree.  The spec describes the wire value as a tagged union
over null, bool, int, float, string, bytes, array, map, record-identifier,
datetime, duration, uuid and decimal, carried over a tagged binary (CBOR)
encoding in which every structured kind keeps its own tag and is never
degraded to a plain string. -/

/-- Modelled from the spec: the language-level wire value — the tagged union
of §3 "Wire Value".  Floats are carried by their 64-bit pattern, uuids by
their 16 raw bytes, decimals by their digit string. -/
inductive Value where
  | vnull : Value
  | vbool (b : Bool) : Value
  | vint (i : Int) : Value
  | vfloat (bits : Nat) : Value
  | vstr (s : String) : Value
  | vbytes (bs : List Nat) : Value
  | varr (vs : List Value) : Value
  | vmap (entries : List (String × Value)) : Value
  | vrecord (table : String) (key : String) : Value
  | vdatetime (secs : Int) (nanos : Nat) : Value
  | vduration (secs : Nat) (nanos : Nat) : Value
  | vuuid (bytes : List Nat) : Value
  | vdecimal (digits : String) : Value

/-- Modelled from the spec: a CBOR data item.  Structured kinds travel under
`itag`; the tag numbers below follow the SurrealDB CBOR protocol (record id
= 8, decimal = 10, datetime = 12, duration = 14, uuid = 37). -/
inductive Item where
  | inull : Item
  | ibool (b : Bool) : Item
  | iint (i : Int) : Item
  | ifloat (bits : Nat) : Item
  | itext (s : String) : Item
  | ibytes (bs : List Nat) : Item
  | iarr (items : List Item) : Item
  | imap (entries : List (Item × Item)) : Item
  | itag (tag : Nat) (content : Item) : Item

mutual

/-- Modelled from the spec: `encode(value) → wire item`.  One canonical tag
per language-level kind; a plain string always encodes as a plain text item,
whatever its contents look like. -/
def encode : Value → Item
  | .vnull => .inull
  | .vbool b => .ibool b
  | .vint i => .iint i
  | .vfloat bits => .ifloat bits
  | .vstr s => .itext s
  | .vbytes bs => .ibytes bs
  | .varr vs => .iarr (encodeList vs)
  | .vmap entries => .imap (encodeEntries entries)
  | .vrecord table key => .itag 8 (.iarr [.itext table, .itext key])
  | .vdatetime secs nanos => .itag 12 (.iarr [.iint secs, .iint nanos])
  | .vduration secs nanos => .itag 14 (.iarr [.iint secs, .iint nanos])
  | .vuuid bytes => .itag 37 (.ibytes bytes)
  | .vdecimal digits => .itag 10 (.itext digits)

/-- Elementwise encoding of an array body. -/
def encodeList : List Value → List Item
  | [] => []
  | v :: vs => encode v :: encodeList vs

/-- Elementwise encoding of a map body (string keys become text items). -/
def encodeEntries : List (String × Value) → List (Item × Item)
  | [] => []
  | (k, v) :: es => (.itext k, encode v) :: encodeEntries es

end

mutual

/-- Modelled from the spec: `decode(item) → value`, total on well-formed
items and `none` (a codec error) otherwise.  Decoding dispatches on the tag
alone — a text item always decodes as a plain string, and each structured
tag decodes back under its own kind. -/
def decode : Item → Option Value
  | .inull => some .vnull
  | .ibool b => some (.vbool b)
  | .iint i => some (.vint i)
  | .ifloat bits => some (.vfloat bits)
  | .itext s => some (.vstr s)
  | .ibytes bs => some (.vbytes bs)
  | .iarr items =>
    match decodeList items with
    | some vs => some (.varr vs)
    | none => none
  | .imap entries =>
    match decodeEntries entries with
    | some es => some (.vmap es)
    | none => none
  | .itag 8 (.iarr [.itext table, .itext key]) => some (.vrecord table key)
  | .itag 12 (.iarr [.iint secs, .iint nanos]) =>
    if 0 ≤ nanos then some (.vdatetime secs nanos.toNat) else none
  | .itag 14 (.iarr [.iint secs, .iint nanos]) =>
    if 0 ≤ secs ∧ 0 ≤ nanos then some (.vduration secs.toNat nanos.toNat)
    else none
  | .itag 37 (.ibytes bytes) => some (.vuuid bytes)
  | .itag 10 (.itext digits) => some (.vdecimal digits)
  | _ => none

/-- Elementwise decoding of an array body; fails if any element fails. -/
def decodeList : List Item → Option (List Value)
  | [] => some []
  | i :: is =>
    match decode i, decodeList is with
    | some v, some vs => some (v :: vs)
    | _, _ => none

/-- Elementwise decoding of a map body; keys must be text items. -/
def decodeEntries : List (Item × Item) → Option (List (String × Value))
  | [] => some []
  | (.itext k, i) :: es =>
    match decode i, decodeEntries es with
    | some v, some vs => some ((k, v) :: vs)
    | _, _ => none
  | _ => none

end

mutual

/-- Round-trip: decoding an encoded value gives back exactly that value. -/
def decode_encode : (v : Value) → decode (encode v) = some v
  | .vnull => rfl
  | .vbool _ => rfl
  | .vint _ => rfl
  | .vfloat _ => rfl
  | .vstr _ => rfl
  | .vbytes _ => rfl
  | .varr vs => by
    simp only [encode, decode, decodeList_encodeList vs]
  | .vmap entries => by
    simp only [encode, decode, decodeEntries_encodeEntries entries]
  | .vrecord _ _ => rfl
  | .vdatetime secs nanos => by
    simp [encode, decode]
  | .vduration secs nanos => by
    simp [encode, decode]
  | .vuuid _ => rfl
  | .vdecimal _ => rfl

/-- Round-trip for array bodies. -/
def decodeList_encodeList : (vs : List Value) →
    decodeList (encodeList vs) = some vs
  | [] => rfl
  | v :: vs => by
    simp only [encodeList, decodeList, decode_encode v, decodeList_encodeList vs]

/-- Round-trip for map bodies. -/
def decodeEntries_encodeEntries : (es : List (String × Value)) →
    decodeEntries (encodeEntries es) = some es
  | [] => rfl
  | (k, v) :: es => by
    simp only [encodeEntries, decodeEntries, decode_encode v,
      decodeEntries_encodeEntries es]

end

end SurrealSDK

/-- C1: for every supported wire-value kind (null, bool, int, float, string,
bytes, array, map, record identifier, datetime, duration, uuid, decimal),
`decode (encode v) = some v`: each value decodes back under its own tag, so
a duration, datetime, decimal, uuid or record identifier is never decoded as
a plain string, and a plain string — even one resembling a structured
literal such as a data-URI — remains exactly that plain string. -/
theorem c1_codec_roundtrip : ∀ v : SurrealSDK.Value,
    SurrealSDK.decode (SurrealSDK.encode v) = some v :=
  SurrealSDK.decode_encode

namespace SurrealSDK

/-! ## Record-id escaping (spec §3 "Record Identifier", roadmap v0.5.5.1)

Modelled from the spec: the `escape_record_id()` / `format_thing()` utilities
of `surreal_sdk` are missing from the source tree.  The roadmap documents
that SurrealDB interprets unquoted local keys starting with digits as number
tokens, so such keys are wrapped in backticks when rendered into a query
string, and the documented fix example renders `7abc123` as a
backtick-quoted key. -/

/-- A character that may appear in an unquoted (bare) record-id token:
letters, digits and underscore. -/
def isPlainIdChar (c : Char) : Bool := c.isAlphanum || c = '_'

/-- Modelled from the spec: a local key needs escaping when it would be
mis-tokenized as a bare token — it is empty, starts with a digit, or
contains a character outside the bare-token alphabet. -/
def needs_escaping (s : String) : Bool :=
  match s.data with
  | [] => true
  | c :: _ => c.isDigit || ¬ s.data.all isPlainIdChar

/-- Modelled from the spec: `escape_record_id()` — wrap the local key in
backticks exactly when it needs escaping, otherwise leave it bare. -/
def escape_record_id (s : String) : String :=
  if needs_escaping s then "\x60" ++ s ++ "\x60" else s

/-- Modelled from the spec: `format_thing()` — render a full thing reference
`table:key` with the key escaped as needed. -/
def format_thing (table key : String) : String :=
  table ++ ":" ++ escape_record_id key

/-- The decoded form of a record-id local key: either a string key or a
bare-number key. -/
inductive RecordKey where
  | kstr (s : String) : RecordKey
  | knum (n : Nat) : RecordKey
deriving DecidableEq, Repr

/-- Numeric value of a digit string (tokenizer view of a bare number). -/
def digitsToNat (cs : List Char) : Nat :=
  cs.foldl (fun acc c => 10 * acc + (c.toNat - 48)) 0

/-- Modelled from the spec: the decode-side tokenization of a rendered local
key.  A backtick-quoted key decodes to the quoted string verbatim; a bare
all-digit key tokenizes as a number; anything else is a bare string key. -/
def parse_record_key (s : String) : RecordKey :=
  match s.data with
  | '\x60' :: rest =>
    if rest.getLast? = some '\x60' then .kstr (String.mk rest.dropLast)
    else .kstr s
  | cs =>
    if cs ≠ [] ∧ cs.all Char.isDigit then .knum (digitsToNat cs) else .kstr s

end SurrealSDK

/-- C2: a local key that would be mis-tokenized as a bare token (such as
"7abc", which starts with a digit) is rendered by `escape_record_id` in
backtick-quoted form, and tokenizing that escaped form yields exactly the
original local key as a string key — never a number. -/
theorem c2_escaped_key_roundtrip (s : String)
    (h : SurrealSDK.needs_escaping s = true) :
    SurrealSDK.escape_record_id s = "\x60" ++ s ++ "\x60" ∧
    SurrealSDK.parse_record_key (SurrealSDK.escape_record_id s) =
      SurrealSDK.RecordKey.kstr s ∧
    ∀ n : Nat, SurrealSDK.parse_record_key (SurrealSDK.escape_record_id s) ≠
      SurrealSDK.RecordKey.knum n := by
  have hesc : SurrealSDK.escape_record_id s = "\x60" ++ s ++ "\x60" := by
    simp [SurrealSDK.escape_record_id, h]
  have hdata : ("\x60" ++ s ++ "\x60").data = '\x60' :: (s.data ++ ['\x60']) := by
    simp [String.data_append]
  have hparse : SurrealSDK.parse_record_key (SurrealSDK.escape_record_id s) =
      SurrealSDK.RecordKey.kstr s := by
    rw [hesc]
    unfold SurrealSDK.parse_record_key
    rw [hdata]
    simp [List.getLast?_concat, List.dropLast_concat]
  refine ⟨hesc, hparse, ?_⟩
  intro n
  rw [hparse]
  intro hcontra
  exact SurrealSDK.RecordKey.noConfusion hcontra

/-- Witness for C2 at the documented key "7abc". -/
theorem c2_escaped_key_roundtrip_witness :
    SurrealSDK.needs_escaping "7abc" = true ∧
    (SurrealSDK.escape_record_id "7abc" = "\x607abc\x60" ∧
     SurrealSDK.parse_record_key (SurrealSDK.escape_record_id "7abc") =
       SurrealSDK.RecordKey.kstr "7abc" ∧
     ∀ n : Nat, SurrealSDK.parse_record_key (SurrealSDK.escape_record_id "7abc") ≠
       SurrealSDK.RecordKey.knum n) :=
  ⟨by decide, c2_escaped_key_roundtrip "7abc" (by decide)⟩

namespace SurrealSDK

/-! ## Transaction controller (spec §4.5, docs/sdk.md "Transactions")

Modelled from the spec: the `HTTPTransaction` (batched) and
`WebSocketTransaction` (immediate) classes of `surreal_sdk` are missing from
the source tree.  The spec gives one begin/execute/commit/rollback contract
with two strategies, a four-state one-directional state machine, and a
scoped-resource discipline (normal exit commits, exit via a raised error
rolls back). -/

/-- The transaction life-cycle states of §3 "Transaction". -/
inductive TxState where
  | inactive : TxState
  | active : TxState
  | committed : TxState
  | rolled_back : TxState
deriving DecidableEq, Repr

/-- A transaction-state error: the operation was attempted while the
transaction was in the named state. -/
inductive TxError where
  | stateError (st : TxState) : TxError
deriving DecidableEq, Repr

/-- Terminal states admit no further operations. -/
def TxState.isTerminal : TxState → Bool
  | .committed => true
  | .rolled_back => true
  | _ => false

/-- Progress rank of a state along the one-directional life cycle. -/
def TxState.rank : TxState → Nat
  | .inactive => 0
  | .active => 1
  | .committed => 2
  | .rolled_back => 2

/-- Modelled from the spec: the single atomic request a batched transaction
sends at commit time — the staged statements wrapped in
`BEGIN TRANSACTION; ...; COMMIT TRANSACTION;`. -/
structure BatchRequest where
  text : String
  stmts : List String
deriving DecidableEq, Repr

/-- Modelled from the spec: build the one combined commit request wrapping
all staged statements. -/
def combined_request (stmts : List String) : BatchRequest :=
  { text := "BEGIN TRANSACTION; " ++ String.intercalate "; " stmts ++
      "; COMMIT TRANSACTION;",
    stmts := stmts }

/-- Modelled from the spec: the batched (stateless-transport) transaction —
a state plus the staged statement list. -/
structure HTTPTransaction where
  state : TxState
  staged : List String
deriving DecidableEq, Repr

/-- Modelled from the spec: `begin()` flips state to ACTIVE and clears the
staged list; no network call. -/
def HTTPTransaction.begin (tx : HTTPTransaction) :
    Except TxError (HTTPTransaction × List BatchRequest) :=
  if tx.state = .inactive then .ok (⟨.active, []⟩, [])
  else .error (.stateError tx.state)

/-- Modelled from the spec: batched `execute()` only appends the statement
to the staged list — no network call; outside ACTIVE it fails with a
transaction-state error. -/
def HTTPTransaction.execute (tx : HTTPTransaction) (stmt : String) :
    Except TxError (HTTPTransaction × List BatchRequest) :=
  if tx.state = .active then .ok (⟨.active, tx.staged ++ [stmt]⟩, [])
  else .error (.stateError tx.state)

/-- Modelled from the spec: batched `commit()` wraps all staged statements
into one atomic request sent once. -/
def HTTPTransaction.commit (tx : HTTPTransaction) :
    Except TxError (HTTPTransaction × List BatchRequest) :=
  if tx.state = .active then
    .ok (⟨.committed, tx.staged⟩, [combined_request tx.staged])
  else .error (.stateError tx.state)

/-- Modelled from the spec: batched `rollback()` discards the staged list
with no network call at all. -/
def HTTPTransaction.rollback (tx : HTTPTransaction) :
    Except TxError (HTTPTransaction × List BatchRequest) :=
  if tx.state = .active then .ok (⟨.rolled_back, []⟩, [])
  else .error (.stateError tx.state)

/-- Run a whole sequence of `execute()` calls, accumulating every network
request any of them makes. -/
def HTTPTransaction.executeAll (tx : HTTPTransaction) :
    List String → Except TxError (HTTPTransaction × List BatchRequest)
  | [] => .ok (tx, [])
  | stmt :: rest =>
    match tx.execute stmt with
    | .error e => .error e
    | .ok (tx2, reqs) =>
      match tx2.executeAll rest with
      | .error e => .error e
      | .ok (tx3, reqs2) => .ok (tx3, reqs ++ reqs2)

/-- Modelled from the spec: server-side sequential execution of the wrapped
statements, under an abstract per-statement semantics `sem`; `none` means
some statement failed. -/
def run_statements {DB : Type} (sem : String → DB → Option DB) (db : DB) :
    List String → Option DB
  | [] => some db
  | stmt :: rest =>
    match sem stmt db with
    | some db2 => run_statements sem db2 rest
    | none => none

/-- Modelled from the spec: the server processes one combined batch request
atomically — all statements apply, or (if any fails) none does and the
database is left unchanged. -/
def server_process_batch {DB : Type} (sem : String → DB → Option DB)
    (db : DB) (req : BatchRequest) : DB :=
  match run_statements sem db req.stmts with
  | some db2 => db2
  | none => db

/-- Executing a statement sequence while ACTIVE stages everything in order
and never touches the network. -/
theorem executeAll_active (stmts : List String) :
    ∀ staged : List String,
      HTTPTransaction.executeAll ⟨.active, staged⟩ stmts =
        .ok (⟨.active, staged ++ stmts⟩, ([] : List BatchRequest)) := by
  induction stmts with
  | nil => intro staged; simp [HTTPTransaction.executeAll]
  | cons s rest ih =>
    intro staged
    simp [HTTPTransaction.executeAll, HTTPTransaction.execute, ih (staged ++ [s])]

end SurrealSDK

/-- C3: in a batched (stateless-transport) transaction, every sequence of
`execute` calls while ACTIVE only appends to the staged list and performs no
network call; `commit` sends exactly one combined request wrapping all the
staged statements; `rollback` discards the staged list with no network call;
and the combined request is processed all-or-nothing server-side, so if any
staged statement fails no statement's effect is visible. -/
theorem c3_batched_transaction {DB : Type} (sem : String → DB → Option DB)
    (db : DB) (staged stmts : List String) :
    (SurrealSDK.HTTPTransaction.executeAll ⟨.active, staged⟩ stmts =
       .ok (⟨.active, staged ++ stmts⟩, ([] : List SurrealSDK.BatchRequest))) ∧
    (SurrealSDK.HTTPTransaction.commit ⟨.active, staged⟩ =
       .ok (⟨.committed, staged⟩, [SurrealSDK.combined_request staged])) ∧
    (SurrealSDK.HTTPTransaction.rollback ⟨.active, staged⟩ =
       .ok (⟨.rolled_back, []⟩, ([] : List SurrealSDK.BatchRequest))) ∧
    ((SurrealSDK.combined_request staged).stmts = staged) ∧
    (SurrealSDK.run_statements sem db staged = none →
       SurrealSDK.server_process_batch sem db
         (SurrealSDK.combined_request staged) = db) := by
  refine ⟨SurrealSDK.executeAll_active stmts staged, ?_, ?_, rfl, ?_⟩
  · simp [SurrealSDK.HTTPTransaction.commit]
  · simp [SurrealSDK.HTTPTransaction.rollback]
  · intro hfail
    simp [SurrealSDK.server_process_batch, SurrealSDK.combined_request, hfail]

namespace SurrealSDK

/-- A concrete statement semantics over a counter database: statement "B"
always fails, every other statement increments the counter. -/
def semW : String → Nat → Option Nat :=
  fun stmt db => if stmt = "B" then none else some (db + 1)

end SurrealSDK

/-- Witness for C3: with staged statements [A, B] where A succeeds and B
fails, the batch fails as a whole and the database is unchanged — A's effect
is not separately visible. -/
theorem c3_batched_transaction_witness :
    SurrealSDK.run_statements SurrealSDK.semW 0 ["A", "B"] = none ∧
    SurrealSDK.server_process_batch SurrealSDK.semW 0
      (SurrealSDK.combined_request ["A", "B"]) = 0 :=
  ⟨rfl, (c3_batched_transaction SurrealSDK.semW 0 ["A", "B"] []).2.2.2.2 rfl⟩

namespace SurrealSDK

/-! ## Immediate (duplex-transport) transaction and its scope (spec §4.5) -/

/-- The frames an immediate transaction puts on the duplex wire: dedicated
begin/commit/cancel frames plus one frame per executed statement. -/
inductive Frame where
  | beginFrame : Frame
  | stmtFrame (stmt : String) : Frame
  | commitFrame : Frame
  | cancelFrame : Frame
deriving DecidableEq, Repr

/-- Modelled from the spec: the immediate (duplex-transport) transaction —
state only; statements go to the server as they are executed. -/
structure WSTransaction where
  state : TxState
deriving DecidableEq, Repr

/-- Modelled from the spec: immediate `begin()` sends a begin-transaction
frame immediately. -/
def WSTransaction.begin (tx : WSTransaction) :
    Except TxError (WSTransaction × List Frame) :=
  if tx.state = .inactive then .ok (⟨.active⟩, [.beginFrame])
  else .error (.stateError tx.state)

/-- Modelled from the spec: immediate `execute()` sends each statement
immediately; outside ACTIVE it fails with a transaction-state error. -/
def WSTransaction.execute (tx : WSTransaction) (stmt : String) :
    Except TxError (WSTransaction × List Frame) :=
  if tx.state = .active then .ok (⟨.active⟩, [.stmtFrame stmt])
  else .error (.stateError tx.state)

/-- Modelled from the spec: immediate `commit()` sends the commit frame. -/
def WSTransaction.commit (tx : WSTransaction) :
    Except TxError (WSTransaction × List Frame) :=
  if tx.state = .active then .ok (⟨.committed⟩, [.commitFrame])
  else .error (.stateError tx.state)

/-- Modelled from the spec: immediate `rollback()` sends the cancel frame. -/
def WSTransaction.rollback (tx : WSTransaction) :
    Except TxError (WSTransaction × List Frame) :=
  if tx.state = .active then .ok (⟨.rolled_back⟩, [.cancelFrame])
  else .error (.stateError tx.state)

/-- Accessor `is_rolled_back` of the documented transaction properties. -/
def WSTransaction.is_rolled_back (tx : WSTransaction) : Bool :=
  tx.state = .rolled_back

/-- Accessor `is_committed` of the documented transaction properties. -/
def WSTransaction.is_committed (tx : WSTransaction) : Bool :=
  tx.state = .committed

/-- Modelled from the spec: run the statements of a transaction-scope body.
Each statement is sent immediately as its own frame; a statement whose
success flag is false raises mid-statement, so the remaining statements
never run.  Returns the frames sent and whether the body raised. -/
def runBody : List (String × Bool) → List Frame × Bool
  | [] => ([], false)
  | (stmt, ok) :: rest =>
    if ok then
      let out := runBody rest
      (Frame.stmtFrame stmt :: out.1, out.2)
    else ([Frame.stmtFrame stmt], true)

/-- Whether the scope body raises: either some statement fails mid-statement
or the body raises on its own after its statements. -/
def scope_raised (body : List (String × Bool)) (raiseAfter : Bool) : Bool :=
  (runBody body).2 || raiseAfter

/-- Modelled from the spec: the scoped-resource discipline of an immediate
transaction.  Entering the scope sends the begin frame; the body runs;
normal exit sends the commit frame; exit via a raised error sends the cancel
frame instead — on every exit path, including failures raised
mid-statement.  Returns the final transaction and the full frame trace. -/
def with_transaction (body : List (String × Bool)) (raiseAfter : Bool) :
    WSTransaction × List Frame :=
  let out := runBody body
  if scope_raised body raiseAfter then
    (⟨.rolled_back⟩, .beginFrame :: out.1 ++ [.cancelFrame])
  else
    (⟨.committed⟩, .beginFrame :: out.1 ++ [.commitFrame])

/-- The body itself only ever sends statement frames. -/
theorem runBody_frames_are_stmts (body : List (String × Bool)) :
    ∀ f ∈ (runBody body).1, ∃ s, f = Frame.stmtFrame s := by
  induction body with
  | nil => intro f hf; simp [runBody] at hf
  | cons p rest ih =>
    intro f hf
    by_cases hok : p.2
    · simp [runBody, hok] at hf
      rcases hf with hf | hf
      · exact ⟨p.1, hf⟩
      · exact ih f hf
    · simp [runBody, hok] at hf
      exact ⟨p.1, hf⟩

/-- The body sends no cancel frame. -/
theorem runBody_count_cancel (body : List (String × Bool)) :
    (runBody body).1.count Frame.cancelFrame = 0 := by
  rw [List.count_eq_zero]
  intro hmem
  rcases runBody_frames_are_stmts body _ hmem with ⟨s, hs⟩
  exact Frame.noConfusion hs

/-- The body sends no commit frame. -/
theorem runBody_count_commit (body : List (String × Bool)) :
    (runBody body).1.count Frame.commitFrame = 0 := by
  rw [List.count_eq_zero]
  intro hmem
  rcases runBody_frames_are_stmts body _ hmem with ⟨s, hs⟩
  exact Frame.noConfusion hs

end SurrealSDK

/-- C4: an immediate (duplex-transport) transaction scope exited via a
raised error — including a failure raised mid-statement — sends exactly one
cancel frame and no commit frame, and afterwards `is_rolled_back` is true;
on every normal scope exit exactly one commit frame and no cancel frame is
sent instead. -/
theorem c4_immediate_transaction_scope (body : List (String × Bool))
    (raiseAfter : Bool) :
    (SurrealSDK.scope_raised body raiseAfter = true →
       (SurrealSDK.with_transaction body raiseAfter).2.count
           SurrealSDK.Frame.cancelFrame = 1 ∧
       (SurrealSDK.with_transaction body raiseAfter).2.count
           SurrealSDK.Frame.commitFrame = 0 ∧
       (SurrealSDK.with_transaction body raiseAfter).1.is_rolled_back = true) ∧
    (SurrealSDK.scope_raised body raiseAfter = false →
       (SurrealSDK.with_transaction body raiseAfter).2.count
           SurrealSDK.Frame.commitFrame = 1 ∧
       (SurrealSDK.with_transaction body raiseAfter).2.count
           SurrealSDK.Frame.cancelFrame = 0 ∧
       (SurrealSDK.with_transaction body raiseAfter).1.is_committed = true) := by
  constructor
  · intro hr
    simp [SurrealSDK.with_transaction, hr, SurrealSDK.WSTransaction.is_rolled_back,
      List.count_cons, List.count_append,
      SurrealSDK.runBody_count_cancel, SurrealSDK.runBody_count_commit]
  · intro hr
    simp [SurrealSDK.with_transaction, hr, SurrealSDK.WSTransaction.is_committed,
      List.count_cons, List.count_append,
      SurrealSDK.runBody_count_cancel, SurrealSDK.runBody_count_commit]

/-- Witness for C4: a two-statement scope whose second statement fails
mid-statement sends exactly one cancel frame, no commit frame, and leaves
the transaction rolled back. -/
theorem c4_immediate_transaction_scope_witness :
    SurrealSDK.scope_raised [("A", true), ("B", false)] false = true ∧
    ((SurrealSDK.with_transaction [("A", true), ("B", false)] false).2.count
        SurrealSDK.Frame.cancelFrame = 1 ∧
     (SurrealSDK.with_transaction [("A", true), ("B", false)] false).2.count
        SurrealSDK.Frame.commitFrame = 0 ∧
     (SurrealSDK.with_transaction [("A", true), ("B", false)] false).1.is_rolled_back
        = true) :=
  ⟨by decide,
   (c4_immediate_transaction_scope [("A", true), ("B", false)] false).1 (by decide)⟩

namespace SurrealSDK

/-! ## Transaction state discipline (spec §4.5 last paragraph, §3) -/

/-- The operations of the shared begin/execute/commit/rollback contract. -/
inductive TxOp where
  | opBegin : TxOp
  | opExecute (stmt : String) : TxOp
  | opCommit : TxOp
  | opRollback : TxOp
deriving DecidableEq, Repr

/-- Uniform dispatch of one contract operation on a batched transaction. -/
def HTTPTransaction.step (tx : HTTPTransaction) :
    TxOp → Except TxError (HTTPTransaction × List BatchRequest)
  | .opBegin => tx.begin
  | .opExecute stmt => tx.execute stmt
  | .opCommit => tx.commit
  | .opRollback => tx.rollback

/-- Uniform dispatch of one contract operation on an immediate
transaction. -/
def WSTransaction.step (tx : WSTransaction) :
    TxOp → Except TxError (WSTransaction × List Frame)
  | .opBegin => tx.begin
  | .opExecute stmt => tx.execute stmt
  | .opCommit => tx.commit
  | .opRollback => tx.rollback

/-- Batched `execute()` outside ACTIVE raises a transaction-state error. -/
theorem http_execute_not_active (tx : HTTPTransaction) (stmt : String)
    (h : tx.state ≠ .active) :
    tx.execute stmt = .error (.stateError tx.state) := by
  simp [HTTPTransaction.execute, h]

/-- Immediate `execute()` outside ACTIVE raises a transaction-state
error. -/
theorem ws_execute_not_active (tx : WSTransaction) (stmt : String)
    (h : tx.state ≠ .active) :
    tx.execute stmt = .error (.stateError tx.state) := by
  simp [WSTransaction.execute, h]

/-- Every contract operation on a terminal batched transaction — in
particular a second commit or rollback — raises a transaction-state
error. -/
theorem http_step_terminal (tx : HTTPTransaction)
    (h : tx.state.isTerminal = true) (op : TxOp) :
    tx.step op = .error (.stateError tx.state) := by
  have hne1 : tx.state ≠ .inactive := by
    intro hc; rw [hc] at h; simp [TxState.isTerminal] at h
  have hne2 : tx.state ≠ .active := by
    intro hc; rw [hc] at h; simp [TxState.isTerminal] at h
  cases op <;>
    simp [HTTPTransaction.step, HTTPTransaction.begin, HTTPTransaction.execute,
      HTTPTransaction.commit, HTTPTransaction.rollback, hne1, hne2]

/-- Every contract operation on a terminal immediate transaction raises a
transaction-state error. -/
theorem ws_step_terminal (tx : WSTransaction)
    (h : tx.state.isTerminal = true) (op : TxOp) :
    tx.step op = .error (.stateError tx.state) := by
  have hne1 : tx.state ≠ .inactive := by
    intro hc; rw [hc] at h; simp [TxState.isTerminal] at h
  have hne2 : tx.state ≠ .active := by
    intro hc; rw [hc] at h; simp [TxState.isTerminal] at h
  cases op <;>
    simp [WSTransaction.step, WSTransaction.begin, WSTransaction.execute,
      WSTransaction.commit, WSTransaction.rollback, hne1, hne2]

/-- Successful batched steps only move forward along the life cycle. -/
theorem http_step_rank (tx : HTTPTransaction) (op : TxOp)
    (tx2 : HTTPTransaction) (reqs : List BatchRequest)
    (h : tx.step op = .ok (tx2, reqs)) :
    tx.state.rank ≤ tx2.state.rank ∧
      (tx2.state ≠ tx.state → tx.state.rank < tx2.state.rank) := by
  obtain ⟨st, staged⟩ := tx
  cases op <;> cases st <;>
      simp_all [HTTPTransaction.step, HTTPTransaction.begin,
        HTTPTransaction.execute, HTTPTransaction.commit,
        HTTPTransaction.rollback] <;>
    (obtain ⟨h1, h2⟩ := h; subst h1; simp [TxState.rank])

/-- Successful immediate steps only move forward along the life cycle. -/
theorem ws_step_rank (tx : WSTransaction) (op : TxOp)
    (tx2 : WSTransaction) (frames : List Frame)
    (h : tx.step op = .ok (tx2, frames)) :
    tx.state.rank ≤ tx2.state.rank ∧
      (tx2.state ≠ tx.state → tx.state.rank < tx2.state.rank) := by
  obtain ⟨st⟩ := tx
  cases op <;> cases st <;>
      simp_all [WSTransaction.step, WSTransaction.begin,
        WSTransaction.execute, WSTransaction.commit,
        WSTransaction.rollback] <;>
    (obtain ⟨h1, h2⟩ := h; subst h1; simp [TxState.rank])

end SurrealSDK

/-- C7: on both transaction controllers, `execute` outside ACTIVE raises a
transaction-state error; every operation on a transaction already in a
terminal state — in particular a second `commit` or `rollback` — raises a
transaction-state error rather than silently doing nothing; and every
successful transition moves forward along the one-directional life cycle
INACTIVE → ACTIVE → COMMITTED/ROLLED_BACK, never backwards. -/
theorem c7_transaction_state_discipline :
    (∀ (tx : SurrealSDK.HTTPTransaction) (stmt : String),
       tx.state ≠ .active →
         tx.execute stmt = .error (.stateError tx.state)) ∧
    (∀ (tx : SurrealSDK.WSTransaction) (stmt : String),
       tx.state ≠ .active →
         tx.execute stmt = .error (.stateError tx.state)) ∧
    (∀ tx : SurrealSDK.HTTPTransaction, tx.state.isTerminal = true →
       ∀ op, tx.step op = .error (.stateError tx.state)) ∧
    (∀ tx : SurrealSDK.WSTransaction, tx.state.isTerminal = true →
       ∀ op, tx.step op = .error (.stateError tx.state)) ∧
    (∀ (tx : SurrealSDK.HTTPTransaction) op tx2 reqs,
       tx.step op = .ok (tx2, reqs) →
         tx.state.rank ≤ tx2.state.rank ∧
           (tx2.state ≠ tx.state → tx.state.rank < tx2.state.rank)) ∧
    (∀ (tx : SurrealSDK.WSTransaction) op tx2 frames,
       tx.step op = .ok (tx2, frames) →
         tx.state.rank ≤ tx2.state.rank ∧
           (tx2.state ≠ tx.state → tx.state.rank < tx2.state.rank)) :=
  ⟨SurrealSDK.http_execute_not_active, SurrealSDK.ws_execute_not_active,
   SurrealSDK.http_step_terminal, SurrealSDK.ws_step_terminal,
   SurrealSDK.http_step_rank, SurrealSDK.ws_step_rank⟩

/-- Witness for C7: a committed batched transaction rejects `execute`, a
rolled-back batched transaction rejects a second `rollback`, a committed
immediate transaction rejects a second `commit`, and committing from ACTIVE
moves strictly forward. -/
theorem c7_transaction_state_discipline_witness :
    (SurrealSDK.HTTPTransaction.execute ⟨.committed, []⟩ "X" =
       .error (.stateError .committed)) ∧
    (SurrealSDK.HTTPTransaction.step ⟨.rolled_back, []⟩ .opRollback =
       .error (.stateError .rolled_back)) ∧
    (SurrealSDK.WSTransaction.step ⟨.committed⟩ .opCommit =
       .error (.stateError .committed)) ∧
    (SurrealSDK.TxState.rank .active < SurrealSDK.TxState.rank .committed) :=
  ⟨c7_transaction_state_discipline.1 ⟨.committed, []⟩ "X" (by decide),
   c7_transaction_state_discipline.2.2.1 ⟨.rolled_back, []⟩ (by decide)
     SurrealSDK.TxOp.opRollback,
   c7_transaction_state_discipline.2.2.2.1 ⟨.committed⟩ (by decide)
     SurrealSDK.TxOp.opCommit,
   ((c7_transaction_state_discipline.2.2.2.2.1 ⟨.active, []⟩
       SurrealSDK.TxOp.opCommit ⟨.committed, []⟩
       [SurrealSDK.combined_request []] rfl).2 (by decide))⟩

namespace SurrealSDK

/-! ## Request dispatcher teardown (spec §4.3, §5, §7)

Modelled from the spec: the duplex-channel request dispatcher of
`surreal_sdk` is missing from the source tree.  The spec describes a map of
pending requests keyed by request id, created on send and destroyed on the
matching response or on channel teardown, at which point every pending
request fails uniformly with a connection-closed error. -/

/-- The error taxonomy of spec §7. -/
inductive SdkError where
  | codecError : SdkError
  | connectionError : SdkError
  | authenticationError : SdkError
  | queryError : SdkError
  | transactionError : SdkError
  | subscriptionError : SdkError
  | poolExhaustedError : SdkError
deriving DecidableEq, Repr

/-- Modelled from the spec: one in-flight request — id, issued-at, and an
implicit response sink represented by the id under which its outcome is
delivered. -/
structure PendingRequest where
  id : Nat
  issuedAt : Nat
deriving DecidableEq, Repr

/-- Modelled from the spec: the dispatcher state — the pending-request map
of the duplex channel. -/
structure Dispatcher where
  pending : List PendingRequest
deriving DecidableEq, Repr

/-- Modelled from the spec: `send` registers a new in-flight request. -/
def Dispatcher.send (d : Dispatcher) (id issuedAt : Nat) : Dispatcher :=
  ⟨d.pending ++ [⟨id, issuedAt⟩]⟩

/-- Modelled from the spec: a matching response resolves and removes
exactly the pending request carrying its id. -/
def Dispatcher.onResponse (d : Dispatcher) (id : Nat) : Dispatcher :=
  ⟨d.pending.filter (fun p => !(p.id == id))⟩

/-- Modelled from the spec: forced disconnect (channel teardown) — every
pending request is failed with a connection-closed error and the
pending-request map is emptied. -/
def Dispatcher.disconnect (d : Dispatcher) :
    Dispatcher × List (Nat × SdkError) :=
  (⟨[]⟩, d.pending.map fun p => (p.id, .connectionError))

end SurrealSDK

/-- C5: a forced disconnect of the duplex channel fails all N in-flight
requests with a ConnectionError — one failure outcome per pending request,
each tagged with that request's id — and leaves the pending-request map
empty, so none hangs silently. -/
theorem c5_disconnect_fails_all_pending (d : SurrealSDK.Dispatcher) :
    (d.disconnect.1.pending = []) ∧
    (d.disconnect.2.length = d.pending.length) ∧
    (∀ p ∈ d.pending,
       (p.id, SurrealSDK.SdkError.connectionError) ∈ d.disconnect.2) ∧
    (∀ o ∈ d.disconnect.2, o.2 = SurrealSDK.SdkError.connectionError) := by
  refine ⟨rfl, by simp [SurrealSDK.Dispatcher.disconnect], ?_, ?_⟩
  · intro p hp
    simp only [SurrealSDK.Dispatcher.disconnect]
    exact List.mem_map.mpr ⟨p, hp, rfl⟩
  · intro o ho
    simp [SurrealSDK.Dispatcher.disconnect] at ho
    rcases ho with ⟨p, _, hpo⟩
    rw [← hpo]

/-- Witness for C5 with three concrete in-flight requests. -/
theorem c5_disconnect_fails_all_pending_witness :
    ((SurrealSDK.Dispatcher.disconnect ⟨[⟨1, 0⟩, ⟨2, 5⟩, ⟨3, 7⟩]⟩).1.pending = []) ∧
    ((SurrealSDK.Dispatcher.disconnect ⟨[⟨1, 0⟩, ⟨2, 5⟩, ⟨3, 7⟩]⟩).2.length = 3) ∧
    ((2, SurrealSDK.SdkError.connectionError) ∈
       (SurrealSDK.Dispatcher.disconnect ⟨[⟨1, 0⟩, ⟨2, 5⟩, ⟨3, 7⟩]⟩).2) :=
  ⟨(c5_disconnect_fails_all_pending ⟨[⟨1, 0⟩, ⟨2, 5⟩, ⟨3, 7⟩]⟩).1,
   (c5_disconnect_fails_all_pending ⟨[⟨1, 0⟩, ⟨2, 5⟩, ⟨3, 7⟩]⟩).2.1,
   (c5_disconnect_fails_all_pending ⟨[⟨1, 0⟩, ⟨2, 5⟩, ⟨3, 7⟩]⟩).2.2.1
     ⟨2, 5⟩ (by decide)⟩

namespace SurrealSDK

/-! ## Subscription manager (spec §4.4)

Modelled from the spec: the live-subscription manager of `surreal_sdk` is
missing from the source tree.  A live subscription carries a stable local
id, a server-subscription id that changes across reconnects, its target
descriptor and options, and flags for auto-resubscribe and the optional
reconnect callback. -/

/-- Modelled from the spec: the target descriptor and options of a live
subscription (`live_select` target, WHERE clause, parameters, diff mode). -/
structure SubOptions where
  target : String
  whereClause : Option String
  params : List (String × String)
  diff : Bool
deriving DecidableEq, Repr

/-- Modelled from the spec: one live subscription owned by the manager. -/
structure Subscription where
  localId : Nat
  serverId : Nat
  options : SubOptions
  autoResubscribe : Bool
  hasOnReconnect : Bool
deriving DecidableEq, Repr

/-- Modelled from the spec: the subscription manager — its live
subscriptions and a fresh-server-id source. -/
structure SubManager where
  subs : List Subscription
  nextServerId : Nat
deriving DecidableEq, Repr

/-- One invocation of an `on_reconnect` callback, carrying the pair of old
and new server-subscription ids. -/
structure ReconnectEvent where
  localId : Nat
  oldServerId : Nat
  newServerId : Nat
deriving DecidableEq, Repr

/-- The wire calls the subscription manager issues: subscribe (live) calls
and kill calls. -/
inductive WireCall where
  | subscribeCall (options : SubOptions) : WireCall
  | killCall (serverId : Nat) : WireCall
deriving DecidableEq, Repr

/-- Modelled from the spec: `unsubscribe(handle)` — if the local id is still
mapped, issue one kill call for its server id, remove the mapping and close
the sink (third component true); otherwise do nothing at all. -/
def SubManager.unsubscribe (m : SubManager) (lid : Nat) :
    SubManager × List WireCall × Bool :=
  match m.subs.find? (fun s => s.localId == lid) with
  | some s =>
    (⟨m.subs.filter (fun t => !(t.localId == lid)), m.nextServerId⟩,
     [WireCall.killCall s.serverId], true)
  | none => (m, [], false)

end SurrealSDK

/-- C8: the first `unsubscribe` on a handle issues exactly one kill call for
the subscription's server id, removes the local-id mapping and closes the
sink; a second `unsubscribe` on the same handle is a no-op — it issues no
kill call, closes no sink and leaves the manager state unchanged. -/
theorem c8_unsubscribe_idempotent (m : SurrealSDK.SubManager) (lid : Nat) :
    (∀ s, m.subs.find? (fun t => t.localId == lid) = some s →
       (m.unsubscribe lid).2.1 = [SurrealSDK.WireCall.killCall s.serverId] ∧
       (m.unsubscribe lid).2.2 = true ∧
       (∀ t ∈ (m.unsubscribe lid).1.subs, t.localId ≠ lid)) ∧
    ((m.unsubscribe lid).1.unsubscribe lid = ((m.unsubscribe lid).1, [], false)) := by
  constructor
  · intro s hfind
    refine ⟨?_, ?_, ?_⟩
    · simp [SurrealSDK.SubManager.unsubscribe, hfind]
    · simp [SurrealSDK.SubManager.unsubscribe, hfind]
    · intro t ht
      simp [SurrealSDK.SubManager.unsubscribe, hfind] at ht
      exact ht.2
  · cases hfind : m.subs.find? (fun s => s.localId == lid) with
    | some s =>
      have hnone : (m.subs.filter (fun t => !(t.localId == lid))).find?
          (fun s => s.localId == lid) = none := by
        rw [List.find?_eq_none]
        intro t ht
        have := List.of_mem_filter ht
        simp at this
        simp [this]
      simp [SurrealSDK.SubManager.unsubscribe, hfind, hnone]
    | none =>
      simp [SurrealSDK.SubManager.unsubscribe, hfind]

/-- Witness for C8: a one-subscription manager; the first unsubscribe kills
server id 42 and the second is a no-op. -/
theorem c8_unsubscribe_idempotent_witness :
    ((SurrealSDK.SubManager.unsubscribe
        ⟨[⟨1, 42, ⟨"users", none, [], false⟩, false, false⟩], 43⟩ 1).2.1 =
      [SurrealSDK.WireCall.killCall 42] ∧
     (SurrealSDK.SubManager.unsubscribe
        ⟨[⟨1, 42, ⟨"users", none, [], false⟩, false, false⟩], 43⟩ 1).2.2 = true ∧
     (∀ t ∈ (SurrealSDK.SubManager.unsubscribe
        ⟨[⟨1, 42, ⟨"users", none, [], false⟩, false, false⟩], 43⟩ 1).1.subs,
        t.localId ≠ 1)) ∧
    ((SurrealSDK.SubManager.unsubscribe
        ⟨[⟨1, 42, ⟨"users", none, [], false⟩, false, false⟩], 43⟩ 1).1.unsubscribe 1 =
      ((SurrealSDK.SubManager.unsubscribe
        ⟨[⟨1, 42, ⟨"users", none, [], false⟩, false, false⟩], 43⟩ 1).1, [], false)) :=
  ⟨(c8_unsubscribe_idempotent
      ⟨[⟨1, 42, ⟨"users", none, [], false⟩, false, false⟩], 43⟩ 1).1
      ⟨1, 42, ⟨"users", none, [], false⟩, false, false⟩ (by decide),
   (c8_unsubscribe_idempotent
      ⟨[⟨1, 42, ⟨"users", none, [], false⟩, false, false⟩], 43⟩ 1).2⟩

namespace SurrealSDK

/-! ## Auto-resubscribe after reconnect (spec §4.4 `on_disconnect`) -/

/-- The outcome of one disconnect/reconnect cycle: the surviving
subscriptions, the reconnect-callback invocations, the wire calls issued,
and the next fresh server id. -/
structure ResubResult where
  subs : List Subscription
  events : List ReconnectEvent
  calls : List WireCall
  nextFresh : Nat
deriving DecidableEq, Repr

/-- Modelled from the spec: on reconnect, every subscription flagged
auto-resubscribe is re-issued with identical target and options, obtains a
fresh server id, keeps its local id, and fires its optional reconnect
callback once with (old server id, new server id); subscriptions without
the flag are dropped. -/
def resubscribeAll (fresh : Nat) : List Subscription → ResubResult
  | [] => ⟨[], [], [], fresh⟩
  | s :: rest =>
    if s.autoResubscribe then
      let r := resubscribeAll (fresh + 1) rest
      ⟨{ s with serverId := fresh } :: r.subs,
       (if s.hasOnReconnect then [⟨s.localId, s.serverId, fresh⟩] else [])
         ++ r.events,
       WireCall.subscribeCall s.options :: r.calls,
       r.nextFresh⟩
    else resubscribeAll fresh rest

/-- Modelled from the spec: one full disconnect/reconnect cycle of the
subscription manager. -/
def SubManager.reconnectCycle (m : SubManager) :
    SubManager × List ReconnectEvent × List WireCall :=
  let r := resubscribeAll m.nextServerId m.subs
  (⟨r.subs, r.nextFresh⟩, r.events, r.calls)

/-- Every reconnect event of a cycle belongs to one of the cycle's input
subscriptions. -/
theorem resub_event_localId_mem (subs : List Subscription) :
    ∀ (fresh : Nat) (e : ReconnectEvent),
      e ∈ (resubscribeAll fresh subs).events →
        e.localId ∈ subs.map (fun t => t.localId) := by
  induction subs with
  | nil =>
    intro fresh e he
    simp [resubscribeAll] at he
  | cons t rest ih =>
    intro fresh e he
    simp only [List.map_cons]
    by_cases hat : t.autoResubscribe
    · by_cases hr : t.hasOnReconnect
      · simp only [resubscribeAll, if_pos hat, if_pos hr,
          List.singleton_append, List.mem_cons] at he
        rcases he with he | he
        · subst he
          exact List.mem_cons_self _ _
        · exact List.mem_cons_of_mem _ (ih (fresh + 1) e he)
      · simp only [resubscribeAll, if_pos hat, if_neg hr,
          List.nil_append] at he
        exact List.mem_cons_of_mem _ (ih (fresh + 1) e he)
    · simp only [resubscribeAll, if_neg hat] at he
      exact List.mem_cons_of_mem _ (ih fresh e he)

/-- Core induction for C6: a subscription flagged auto-resubscribe survives
the cycle with unchanged local id and options, gets a server id no smaller
than the fresh-id floor, is re-issued on the wire with identical options,
and its reconnect callback fires exactly once (when registered) with the
pair of old and new server ids. -/
theorem resub_spec (subs : List Subscription) :
    ∀ (fresh : Nat) (s : Subscription), s ∈ subs →
      (∀ t ∈ subs, t.serverId < fresh) →
      (subs.map (fun t => t.localId)).Nodup →
      s.autoResubscribe = true →
      ∃ s2, s2 ∈ (resubscribeAll fresh subs).subs ∧
        s2.localId = s.localId ∧
        s2.options = s.options ∧
        fresh ≤ s2.serverId ∧
        WireCall.subscribeCall s.options ∈ (resubscribeAll fresh subs).calls ∧
        ((resubscribeAll fresh subs).events.filter
            (fun e => e.localId == s.localId)).length =
          (if s.hasOnReconnect then 1 else 0) ∧
        (s.hasOnReconnect = true →
          (⟨s.localId, s.serverId, s2.serverId⟩ : ReconnectEvent) ∈
            (resubscribeAll fresh subs).events) := by
  induction subs with
  | nil =>
    intro fresh s hs
    simp at hs
  | cons t rest ih =>
    intro fresh s hs hlt hnd ha
    have hndTail : (rest.map (fun t => t.localId)).Nodup :=
      (List.nodup_cons.mp (by simpa using hnd)).2
    have hndHead : t.localId ∉ rest.map (fun t => t.localId) :=
      (List.nodup_cons.mp (by simpa using hnd)).1
    rcases List.mem_cons.mp hs with heq | hmem
    · subst heq
      have hrestFilter :
          ((resubscribeAll (fresh + 1) rest).events.filter
            (fun e => e.localId == s.localId)) = [] := by
        rw [List.filter_eq_nil_iff]
        intro e he
        have hmem2 := resub_event_localId_mem rest (fresh + 1) e he
        simp only [beq_iff_eq]
        intro hcontra
        rw [hcontra] at hmem2
        exact hndHead hmem2
      refine ⟨{ s with serverId := fresh }, ?_, rfl, rfl, Nat.le_refl fresh,
        ?_, ?_, ?_⟩
      · simp [resubscribeAll, ha]
      · simp [resubscribeAll, ha]
      · by_cases hr : s.hasOnReconnect <;>
          simp [resubscribeAll, ha, hr, List.filter_append, hrestFilter]
      · intro hr
        simp [resubscribeAll, ha, hr]
    · by_cases hat : t.autoResubscribe
      · have hltTail : ∀ u ∈ rest, u.serverId < fresh + 1 := fun u hu =>
          Nat.lt_succ_of_lt (hlt u (List.mem_cons_of_mem t hu))
        obtain ⟨s2, h1, h2, h3, h4, h5, h6, h7⟩ :=
          ih (fresh + 1) s hmem hltTail hndTail ha
        have hneq : t.localId ≠ s.localId := by
          intro hcontra
          exact hndHead (hcontra ▸ List.mem_map.mpr ⟨s, hmem, rfl⟩)
        refine ⟨s2, ?_, h2, h3, Nat.le_of_succ_le h4, ?_, ?_, ?_⟩
        · simp only [resubscribeAll, hat, if_pos]
          exact List.mem_cons_of_mem _ h1
        · simp only [resubscribeAll, hat, if_pos]
          exact List.mem_cons_of_mem _ h5
        · by_cases hr : t.hasOnReconnect <;>
            simp [resubscribeAll, hat, hr, List.filter_append, h6, hneq]
        · intro hr
          have := h7 hr
          by_cases hrt : t.hasOnReconnect <;>
            simp [resubscribeAll, hat, hrt, List.mem_append, this]
      · have hltTail : ∀ u ∈ rest, u.serverId < fresh := fun u hu =>
          hlt u (List.mem_cons_of_mem t hu)
        obtain ⟨s2, h1, h2, h3, h4, h5, h6, h7⟩ :=
          ih fresh s hmem hltTail hndTail ha
        exact ⟨s2, by simpa [resubscribeAll, hat] using h1, h2, h3, h4,
          by simpa [resubscribeAll, hat] using h5,
          by simpa [resubscribeAll, hat] using h6,
          fun hr => by simpa [resubscribeAll, hat] using h7 hr⟩

end SurrealSDK

/-- C6: after a disconnect/reconnect cycle, every subscription created with
auto-resubscribe keeps its local id (the handle is unchanged), keeps its
target and options (it is re-issued identically on the wire), has its
server-subscription id replaced by a new one in the mapping, and its
optional `on_reconnect` callback fires exactly once for the cycle with the
pair (old server id, new server id). -/
theorem c6_auto_resubscribe (m : SurrealSDK.SubManager)
    (hfresh : ∀ s ∈ m.subs, s.serverId < m.nextServerId)
    (hnodup : (m.subs.map (fun t => t.localId)).Nodup) :
    ∀ s ∈ m.subs, s.autoResubscribe = true →
      ∃ s2, s2 ∈ m.reconnectCycle.1.subs ∧
        s2.localId = s.localId ∧
        s2.options = s.options ∧
        s2.serverId ≠ s.serverId ∧
        SurrealSDK.WireCall.subscribeCall s.options ∈ m.reconnectCycle.2.2 ∧
        (m.reconnectCycle.2.1.filter
            (fun e => e.localId == s.localId)).length =
          (if s.hasOnReconnect then 1 else 0) ∧
        (s.hasOnReconnect = true →
          (⟨s.localId, s.serverId, s2.serverId⟩ : SurrealSDK.ReconnectEvent) ∈
            m.reconnectCycle.2.1) := by
  intro s hs ha
  obtain ⟨s2, h1, h2, h3, h4, h5, h6, h7⟩ :=
    SurrealSDK.resub_spec m.subs m.nextServerId s hs hfresh hnodup ha
  have hneq : s2.serverId ≠ s.serverId := by
    have := hfresh s hs
    omega
  exact ⟨s2, h1, h2, h3, hneq, h5, h6, h7⟩

/-- Witness for C6: a two-subscription manager in which only local id 1 has
auto-resubscribe; after the cycle it survives with its local id and options,
a new server id, and exactly one reconnect-callback invocation. -/
theorem c6_auto_resubscribe_witness :
    ∃ s2, s2 ∈ (SurrealSDK.SubManager.reconnectCycle
        ⟨[⟨1, 10, ⟨"players", some "table_id = $id", [("id", "game:1")], false⟩,
            true, true⟩,
          ⟨2, 11, ⟨"users", none, [], false⟩, false, false⟩], 12⟩).1.subs ∧
      s2.localId = 1 ∧
      s2.options = ⟨"players", some "table_id = $id", [("id", "game:1")], false⟩ ∧
      s2.serverId ≠ 10 ∧
      SurrealSDK.WireCall.subscribeCall
          ⟨"players", some "table_id = $id", [("id", "game:1")], false⟩ ∈
        (SurrealSDK.SubManager.reconnectCycle
          ⟨[⟨1, 10, ⟨"players", some "table_id = $id", [("id", "game:1")], false⟩,
              true, true⟩,
            ⟨2, 11, ⟨"users", none, [], false⟩, false, false⟩], 12⟩).2.2 ∧
      ((SurrealSDK.SubManager.reconnectCycle
          ⟨[⟨1, 10, ⟨"players", some "table_id = $id", [("id", "game:1")], false⟩,
              true, true⟩,
            ⟨2, 11, ⟨"users", none, [], false⟩, false, false⟩], 12⟩).2.1.filter
          (fun e => e.localId == 1)).length = 1 ∧
      ((⟨1, 10, s2.serverId⟩ : SurrealSDK.ReconnectEvent) ∈
        (SurrealSDK.SubManager.reconnectCycle
          ⟨[⟨1, 10, ⟨"players", some "table_id = $id", [("id", "game:1")], false⟩,
              true, true⟩,
            ⟨2, 11, ⟨"users", none, [], false⟩, false, false⟩], 12⟩).2.1) := by
  obtain ⟨s2, h1, h2, h3, h4, h5, h6, h7⟩ :=
    c6_auto_resubscribe
      ⟨[⟨1, 10, ⟨"players", some "table_id = $id", [("id", "game:1")], false⟩,
          true, true⟩,
        ⟨2, 11, ⟨"users", none, [], false⟩, false, false⟩], 12⟩
      (by decide) (by decide)
      ⟨1, 10, ⟨"players", some "table_id = $id", [("id", "game:1")], false⟩,
        true, true⟩
      (by decide) rfl
  exact ⟨s2, h1, h2, h3, h4, h5, h6, h7 rfl⟩

namespace SurrealSDK

/-! ## Typed function calls (docs/sdk.md "Function Name Normalization")

Modelled from the spec: the `call()` implementation of `surreal_sdk` is
missing from the source tree.  The documentation states that a function name
without a namespace separator gets the `fn::` prefix added automatically,
while names already carrying another namespace (e.g. `math::sqrt`) are
preserved unchanged, and that `call("cast_vote", ...)` and
`call("fn::cast_vote", ...)` are equivalent. -/

/-- Whether a character list contains the namespace separator `::`. -/
def hasNamespaceSep : List Char → Bool
  | ':' :: ':' :: _ => true
  | _ :: rest => hasNamespaceSep rest
  | [] => false

/-- Modelled from the spec: normalize a function name — prepend `fn::` when
the name contains no namespace separator, otherwise leave it unchanged. -/
def normalize_function_name (name : String) : String :=
  if hasNamespaceSep name.data then name else "fn::" ++ name

/-- Modelled from the spec: the query `call()` builds and sends — a RETURN
of the normalized function applied to its named variables. -/
def build_call_query (name : String) (args : List String) : String :=
  "RETURN " ++ normalize_function_name name ++ "(" ++
    String.intercalate ", " args ++ ")"

/-- Prefixing any name with `fn::` yields a name containing the
separator. -/
theorem hasNamespaceSep_fn_prefix (name : String) :
    hasNamespaceSep ("fn::" ++ name).data = true := rfl

end SurrealSDK

/-- C9: `call` normalizes the function name before building the query — a
name with no `::` separator gets the `fn::` prefix, so plain and
`fn::`-prefixed spellings send the identical query, while a name already
carrying a namespace separator is sent unchanged. -/
theorem c9_call_name_normalization (name : String) (args : List String) :
    (SurrealSDK.hasNamespaceSep name.data = false →
       SurrealSDK.normalize_function_name name = "fn::" ++ name ∧
       SurrealSDK.build_call_query name args =
         SurrealSDK.build_call_query ("fn::" ++ name) args) ∧
    (SurrealSDK.hasNamespaceSep name.data = true →
       SurrealSDK.normalize_function_name name = name) := by
  constructor
  · intro h
    have hnorm : SurrealSDK.normalize_function_name name = "fn::" ++ name := by
      simp [SurrealSDK.normalize_function_name, h]
    have hnorm2 : SurrealSDK.normalize_function_name ("fn::" ++ name) =
        "fn::" ++ name := by
      simp only [SurrealSDK.normalize_function_name,
        SurrealSDK.hasNamespaceSep_fn_prefix name, if_true]
    exact ⟨hnorm, by simp [SurrealSDK.build_call_query, hnorm, hnorm2]⟩
  · intro h
    simp [SurrealSDK.normalize_function_name, h]

/-- Witness for C9 at the documented names: "cast_vote" gains the `fn::`
prefix and builds the same query as "fn::cast_vote", while "math::sqrt" is
preserved unchanged. -/
theorem c9_call_name_normalization_witness :
    (SurrealSDK.hasNamespaceSep "cast_vote".data = false ∧
     SurrealSDK.normalize_function_name "cast_vote" = "fn::cast_vote" ∧
     SurrealSDK.build_call_query "cast_vote" ["user_id"] =
       SurrealSDK.build_call_query "fn::cast_vote" ["user_id"]) ∧
    (SurrealSDK.hasNamespaceSep "math::sqrt".data = true ∧
     SurrealSDK.normalize_function_name "math::sqrt" = "math::sqrt") :=
  ⟨⟨by decide,
    ((c9_call_name_normalization "cast_vote" ["user_id"]).1 (by decide)).1,
    ((c9_call_name_normalization "cast_vote" ["user_id"]).1 (by decide)).2⟩,
   ⟨by decide,
    (c9_call_name_normalization "math::sqrt" ["value"]).2 (by decide)⟩⟩

namespace SurrealSDK

/-! ## Endpoint-URL normalization (docs/sdk.md "URL Formats")

Modelled from the spec: the URL-conversion helpers of `surreal_sdk` are
missing from the source tree.  The documentation's table maps any input
scheme among http, https, ws, wss to `http(s)://host/sql` for an HTTP
connection and `ws(s)://host/rpc` for a WebSocket connection, secure to
secure and insecure to insecure. -/

/-- The input URL schemes the SDK accepts. -/
inductive Scheme where
  | http : Scheme
  | https : Scheme
  | ws : Scheme
  | wss : Scheme
deriving DecidableEq, Repr

/-- Whether a scheme is secure (TLS). -/
def Scheme.isSecure : Scheme → Bool
  | .https => true
  | .wss => true
  | _ => false

/-- Modelled from the spec: the scheme an HTTP connection uses — ws maps to
http, wss to https, and the http schemes stay put. -/
def toHTTPScheme : Scheme → Scheme
  | .http => .http
  | .https => .https
  | .ws => .http
  | .wss => .https

/-- Modelled from the spec: the scheme a WebSocket connection uses — http
maps to ws, https to wss, and the ws schemes stay put. -/
def toWSScheme : Scheme → Scheme
  | .http => .ws
  | .https => .wss
  | .ws => .ws
  | .wss => .wss

/-- Textual form of a scheme. -/
def Scheme.render : Scheme → String
  | .http => "http"
  | .https => "https"
  | .ws => "ws"
  | .wss => "wss"

/-- Modelled from the spec: the endpoint URL an HTTP connection targets. -/
def http_connection_url (s : Scheme) (host : String) : String :=
  (toHTTPScheme s).render ++ "://" ++ host ++ "/sql"

/-- Modelled from the spec: the endpoint URL a WebSocket connection
targets. -/
def ws_connection_url (s : Scheme) (host : String) : String :=
  (toWSScheme s).render ++ "://" ++ host ++ "/rpc"

end SurrealSDK

/-- C10: endpoint-URL normalization is a total function of the input scheme
alone — for any host and any input scheme among http, https, ws, wss, an
HTTP connection targets `http(s)://host/sql` and a WebSocket connection
targets `ws(s)://host/rpc`, the cross mappings being ws→http, wss→https,
http→ws and https→wss, with secure schemes mapping to secure schemes and
insecure to insecure. -/
theorem c10_url_normalization (s : SurrealSDK.Scheme) (host : String) :
    (SurrealSDK.http_connection_url s host =
      (if s.isSecure then "https" else "http") ++ "://" ++ host ++ "/sql") ∧
    (SurrealSDK.ws_connection_url s host =
      (if s.isSecure then "wss" else "ws") ++ "://" ++ host ++ "/rpc") ∧
    ((SurrealSDK.toHTTPScheme s).isSecure = s.isSecure) ∧
    ((SurrealSDK.toWSScheme s).isSecure = s.isSecure) ∧
    (SurrealSDK.toHTTPScheme s = .http ∨ SurrealSDK.toHTTPScheme s = .https) ∧
    (SurrealSDK.toWSScheme s = .ws ∨ SurrealSDK.toWSScheme s = .wss) ∧
    (SurrealSDK.toHTTPScheme (SurrealSDK.toWSScheme s) =
      SurrealSDK.toHTTPScheme s) ∧
    (SurrealSDK.toWSScheme (SurrealSDK.toHTTPScheme s) =
      SurrealSDK.toWSScheme s) := by
  cases s <;>
    simp [SurrealSDK.http_connection_url, SurrealSDK.ws_connection_url,
      SurrealSDK.toHTTPScheme, SurrealSDK.toWSScheme, SurrealSDK.Scheme.render,
      SurrealSDK.Scheme.isSecure]
